import Mathlib

/-!
Shallow embedding of `models.py` of the maintenance NApp
(classes `MaintenanceWindow` and `Scheduler`).

Conventions of the embedding:

* Python exceptions are made explicit: a fallible operation returns
  `Except PyErr _`; an in-place mutating method (`update`) returns the
  (possibly partially) mutated object together with `Option PyErr`, since
  in Python an exception escaping `update` leaves the mutations already
  performed on `self` in place.
* `controller.get_interface_by_id` is the external topology resolver; it is
  modelled as a function `Resolver := String → Option Interface` (it returns
  the interface object, or `None` when not found).
* Timestamps: a Python aware `datetime` is modelled as `Datetime`
  (`instantSec`: the UTC instant in whole seconds, `micro`: microseconds,
  `offMin`: the tzinfo's UTC offset in minutes).  The string produced by
  `strftime` with the fixed pattern `"%Y-%m-%dT%H:%M:%S%z"` determines, and
  is determined by, the wall-clock time to second precision plus the
  offset; the calendar rendering (a bijection between a second count and
  Y-M-D h:m:s fields) is abstracted to the local second count, so the
  string type `TimeStr` carries `localSec = instantSec + offMin*60` and
  `offMin`.  A string that does not match the pattern is `TimeStr.invalid`
  and makes `strptime` raise `ValueError`.
* `uuid4().hex` is modelled by an explicit `fresh : String` parameter.
* JSON-ish wire values for items are `RawItem`: a string, a dict
  (`RawDict`, with exactly the keys the code probes: `interface_id`, `tag`,
  `endpoint_a`/`endpoint_b` — the nested `['id']` access is abstracted to
  the id itself — and `metadata`), or a raw Python object (`objItem`, what
  `as_dict` appends when serializing a resolved object fails).
* `kytos.core` collaborators (era of this fork): `TAG.from_dict` reads
  `tag_type`/`value` with `.get`; a `TAG` instance is always truthy;
  `UNI.__eq__` compares interface and tag; `Link.__init__` stores the two
  endpoints as given (no `None` check in this era) and `Link.__eq__`
  compares only the endpoints; `Link` metadata is a Python dict, modelled
  as an association list with dict update semantics.
-/

inductive PyErr where
  | keyError
  | typeError
  | valueError
  | attributeError
  | jobLookupError
  | conflictingIdError
deriving DecidableEq, Repr

/-- An aware Python `datetime`: UTC instant in whole seconds, microseconds,
and the tzinfo's UTC offset in minutes. -/
structure Datetime where
  instantSec : Int
  micro : Nat
  offMin : Int
deriving DecidableEq, Repr

/-- What a string formatted with `TIME_FMT = "%Y-%m-%dT%H:%M:%S%z"` carries:
the local wall-clock second count and the `%z` offset; or an arbitrary
string that does not match the pattern. -/
inductive TimeStr where
  | valid (localSec : Int) (offMin : Int)
  | invalid (s : String)
deriving DecidableEq, Repr

/-- `dt.strftime(TIME_FMT)`: renders local wall-clock time (to seconds;
microseconds are dropped by the pattern) plus the offset. -/
def strftime (d : Datetime) : TimeStr :=
  .valid (d.instantSec + d.offMin * 60) d.offMin

/-- `datetime.datetime.strptime(s, TIME_FMT)`: parses the pattern back into
an aware datetime (microsecond 0), raising `ValueError` on a non-matching
string. -/
def strptime : TimeStr → Except PyErr Datetime
  | .valid localSec offMin => .ok ⟨localSec - offMin * 60, 0, offMin⟩
  | .invalid _ => .error .valueError

/-- `dt.astimezone(pytz.utc)`: same instant, re-expressed in UTC. -/
def astimezoneUtc (d : Datetime) : Datetime :=
  ⟨d.instantSec, d.micro, 0⟩

/-- A kytos `Interface`, abstracted to its id (the resolver returns interned
interface objects, and the code only reads `.id`). -/
structure Interface where
  id : String
deriving DecidableEq, Repr

/-- External resolver: `controller.get_interface_by_id`. -/
def Resolver := String → Option Interface

/-- kytos `TAG` (`tag_type`, `value`). A `TAG` instance is always truthy. -/
structure TAG where
  tag_type : Nat
  value : Nat
deriving DecidableEq, Repr

/-- The wire form of a tag: the dict read by `TAG.from_dict`. -/
structure TagDict where
  tag_type : Nat
  value : Nat
deriving DecidableEq, Repr

/-- kytos `UNI` (interface + user tag). -/
structure UNI where
  interface : Interface
  user_tag : TAG
deriving DecidableEq, Repr

/-- A metadata value: a tag dict (from the wire), a `TAG` object (after
`update_metadata('s_vlan', tag)`), or an opaque string. -/
inductive MetaVal where
  | tagDict (d : TagDict)
  | tagObj (t : TAG)
  | raw (s : String)
deriving DecidableEq, Repr

/-- Link metadata: a Python dict, modelled as an association list. -/
def Metadata := List (String × MetaVal)
deriving DecidableEq, Repr

/-- kytos `Link`: the two endpoints exactly as passed to the constructor
(in this era `Link.__init__` stores them without a `None` check), plus
metadata. -/
structure Link where
  endpoint_a : Option Interface
  endpoint_b : Option Interface
  metadata : Metadata
deriving DecidableEq, Repr

/-- An element of a window's `items` list: an opaque (string) token, a
resolved `UNI`, a resolved `Link`, or a dict that was passed through. -/
inductive Item where
  | token (s : String)
  | uni (u : UNI)
  | link (l : Link)
  | dictItem (interface_id : Option String) (tag : Option TagDict)
      (endpoint_a : Option String) (endpoint_b : Option String)
      (metadata : Option Metadata)
deriving DecidableEq, Repr

/-- The wire shape of a dict item; only the keys the code probes are
modelled (`['endpoint_a']['id']` is abstracted to the id itself). -/
structure RawDict where
  interface_id : Option String
  tag : Option TagDict
  endpoint_a : Option String
  endpoint_b : Option String
  metadata : Option Metadata
deriving DecidableEq, Repr

/-- A wire item: a string, a dict, or a raw Python object (appended by
`as_dict` when serialization of a resolved object raises). -/
inductive RawItem where
  | str (s : String)
  | dict (d : RawDict)
  | objItem (it : Item)
deriving DecidableEq, Repr

/-- The wire record of a window (`mw_dict`); each field is `none` when the
key is absent from the dict. The same type serves as the `update` patch. -/
structure RawMW where
  id : Option String
  start : Option TimeStr
  end_ : Option TimeStr
  items : Option (List RawItem)
deriving DecidableEq, Repr

/-- The `MaintenanceWindow` instance (the stored `controller` reference is
threaded separately as the `Resolver` parameter of each operation). -/
structure MaintenanceWindow where
  id : String
  start : Datetime
  end_ : Datetime
  items : List Item
deriving DecidableEq, Repr

/-- `self.id = mw_id if mw_id else uuid4().hex` (note: a falsy id, `None`
or the empty string, is replaced by a fresh uuid hex). -/
def mkId (mw_id : Option String) (fresh : String) : String :=
  match mw_id with
  | some s => if s = "" then fresh else s
  | none => fresh

/-- Python dict lookup on an association list (first binding wins; wire
dicts have no duplicate keys). -/
def getMeta : List (String × MetaVal) → String → Option MetaVal
  | [], _ => none
  | (k, v) :: rest, q => if q = k then some v else getMeta rest q

/-- Python `d[k] = v`: replace the (first) binding for `k` in place, or
append a new one at the end. -/
def metaUpdate : List (String × MetaVal) → String → MetaVal → List (String × MetaVal)
  | [], k, v => [(k, v)]
  | (k2, v2) :: rest, k, v =>
    if k2 = k then (k, v) :: rest else (k2, v2) :: metaUpdate rest k v

/-- `GenericEntity.extend_metadata`: `self.metadata.update(new)`. -/
def extendMetadata (m : List (String × MetaVal)) (new : List (String × MetaVal)) :
    List (String × MetaVal) :=
  new.foldl (fun acc p => metaUpdate acc p.1 p.2) m

/-- Truthiness of a metadata value (`if s_vlan:`): a dict is truthy when
non-empty — `TagDict` always has its two keys — a `TAG` object is truthy,
a string is truthy when non-empty. -/
def metaTruthy : MetaVal → Bool
  | .tagDict _ => true
  | .tagObj _ => true
  | .raw s => !(s = "")

/-- `TAG.from_dict(v)`: reads `tag_type`/`value` with `.get`; applied to a
value that is not a dict (a `TAG` object or a string) it raises
`AttributeError` from the `.get` access. -/
def tagFromMetaVal : MetaVal → Except PyErr TAG
  | .tagDict d => .ok ⟨d.tag_type, d.value⟩
  | .tagObj _ => .error .attributeError
  | .raw _ => .error .attributeError

/-- `MaintenanceWindow.intf_from_dict`. -/
def intf_from_dict (intf_id : String) (controller : Resolver) : Option Interface :=
  controller intf_id

/-- `MaintenanceWindow.uni_from_dict`: `uni_dict['interface_id']` raises
`KeyError` when the key is absent and `TypeError` when the item is not a
dict; then the interface is resolved, `uni_dict['tag']` is read (`KeyError`
when absent) and parsed by `TAG.from_dict`; `if intf and tag` — a `TAG`
instance is always truthy, so the test reduces to the interface being
found — returns the `UNI`, else `None`. -/
def uni_from_dict (i : RawItem) (controller : Resolver) : Except PyErr (Option UNI) :=
  match i with
  | .str _ => .error .typeError
  | .objItem _ => .error .typeError
  | .dict d =>
    match d.interface_id with
    | none => .error .keyError
    | some intf_id =>
      let intf := intf_from_dict intf_id controller
      match d.tag with
      | none => .error .keyError
      | some td =>
        let tag : TAG := ⟨td.tag_type, td.value⟩
        match intf with
        | some io => .ok (some ⟨io, tag⟩)
        | none => .ok none

/-- `MaintenanceWindow.link_from_dict`: `link_dict['endpoint_a']['id']` and
`link_dict['endpoint_b']['id']` raise `KeyError` when absent (`TypeError`
for a non-dict); the endpoints are resolved (possibly to `None`, which in
this era `Link.__init__` stores as-is); supplied metadata is attached; a
truthy `s_vlan` metadata value is parsed with `TAG.from_dict` and replaced
by the resulting `TAG` object. -/
def link_from_dict (i : RawItem) (controller : Resolver) : Except PyErr Link :=
  match i with
  | .str _ => .error .typeError
  | .objItem _ => .error .typeError
  | .dict d =>
    match d.endpoint_a with
    | none => .error .keyError
    | some aId =>
      match d.endpoint_b with
      | none => .error .keyError
      | some bId =>
        let endpoint_a := controller aId
        let endpoint_b := controller bId
        let link : Link := ⟨endpoint_a, endpoint_b, []⟩
        let link : Link :=
          match d.metadata with
          | some md => { link with metadata := extendMetadata link.metadata md }
          | none => link
        match getMeta link.metadata "s_vlan" with
        | some sv =>
          if metaTruthy sv then
            match tagFromMetaVal sv with
            | .ok tag =>
              .ok { link with metadata := metaUpdate link.metadata "s_vlan" (.tagObj tag) }
            | .error e => .error e
          else .ok link
        | none => .ok link

/-- The wire value interpreted as the item itself (`item = i` in the
`except TypeError` branch). -/
def rawAsItem : RawItem → Item
  | .str s => .token s
  | .objItem it => it
  | .dict d => .dictItem d.interface_id d.tag d.endpoint_a d.endpoint_b d.metadata

/-- The shared `try/except` probe of `from_dict` and `update`:
`uni_from_dict`, on `KeyError` fall back to `link_from_dict` (whose own
exceptions escape: an exception raised inside an `except` handler is not
caught by the following `except TypeError`), on `TypeError` keep the raw
item.  `.ok none` is Python's `item = None` (an unresolvable UNI). -/
def item_from_raw (i : RawItem) (controller : Resolver) : Except PyErr (Option Item) :=
  match uni_from_dict i controller with
  | .ok (some u) => .ok (some (.uni u))
  | .ok none => .ok none
  | .error .keyError =>
    match link_from_dict i controller with
    | .ok l => .ok (some (.link l))
    | .error e => .error e
  | .error .typeError => .ok (some (rawAsItem i))
  | .error e => .error e

/-- The items loop of `from_dict`: `if item is None: return None`, so the
whole deserialization yields `none` as soon as one item is `None`. -/
def fromDictItems (controller : Resolver) : List RawItem → Except PyErr (Option (List Item))
  | [] => .ok (some [])
  | i :: rest =>
    match item_from_raw i controller with
    | .error e => .error e
    | .ok none => .ok none
    | .ok (some it) =>
      match fromDictItems controller rest with
      | .error e => .error e
      | .ok none => .ok none
      | .ok (some l) => .ok (some (it :: l))

/-- `MaintenanceWindow.from_dict` (`fresh` models `uuid4().hex`): reads the
optional id, parses `start` and `end` (`KeyError` when absent,
`ValueError` on a malformed string), runs the items loop, and constructs
the window. -/
def from_dict (r : RawMW) (controller : Resolver) (fresh : String) :
    Except PyErr (Option MaintenanceWindow) :=
  let mw_id := r.id
  match r.start with
  | none => .error .keyError
  | some sRaw =>
    match strptime sRaw with
    | .error e => .error e
    | .ok sdt =>
      match r.end_ with
      | none => .error .keyError
      | some eRaw =>
        match strptime eRaw with
        | .error e => .error e
        | .ok edt =>
          match r.items with
          | none => .error .keyError
          | some raws =>
            match fromDictItems controller raws with
            | .error e => .error e
            | .ok none => .ok none
            | .ok (some its) =>
              .ok (some ⟨mkId mw_id fresh, astimezoneUtc sdt, astimezoneUtc edt, its⟩)

/-- Python truthiness of an item (`if item:`): an object without
`__bool__`/`__len__` (UNI, Link) is truthy; a string is truthy when
non-empty; a dict is truthy when non-empty. -/
def itemTruthy : Item → Bool
  | .token s => !(s = "")
  | .uni _ => true
  | .link _ => true
  | .dictItem i t a b m =>
    !(i = none && t = none && a = none && b = none && m = none)

/-- The items loop of `update`: same probe, but `None`/falsy items are
silently skipped (`if item: items.append(item)`). -/
def updateItems (controller : Resolver) : List RawItem → Except PyErr (List Item)
  | [] => .ok []
  | i :: rest =>
    match item_from_raw i controller with
    | .error e => .error e
    | .ok none => updateItems controller rest
    | .ok (some it) =>
      match updateItems controller rest with
      | .error e => .error e
      | .ok l => .ok (if itemTruthy it then it :: l else l)

/-- Third block of `update`: `if 'items' in mw_dict` — the local list is
assigned to `self.items` only after the loop finishes, so an exception in
the loop leaves `items` unchanged. -/
def updateItemsField (w : MaintenanceWindow) (patch : RawMW) (controller : Resolver) :
    MaintenanceWindow × Option PyErr :=
  match patch.items with
  | none => (w, none)
  | some raws =>
    match updateItems controller raws with
    | .error e => (w, some e)
    | .ok l => ({ w with items := l }, none)

/-- Second block of `update`: `if 'end' in mw_dict` parse-and-assign;
a `ValueError` here escapes, leaving `end` and `items` unchanged (but any
`start` assignment already performed stays). -/
def updateEndField (w : MaintenanceWindow) (patch : RawMW) (controller : Resolver) :
    MaintenanceWindow × Option PyErr :=
  match patch.end_ with
  | none => updateItemsField w patch controller
  | some ts =>
    match strptime ts with
    | .error e => (w, some e)
    | .ok edt => updateItemsField { w with end_ := astimezoneUtc edt } patch controller

/-- `MaintenanceWindow.update`: mutates `self` field by field in source
order (`start`, then `end`, then `items`); the returned window is the
state of `self` when the method returns or when the first exception
escapes. -/
def update (w : MaintenanceWindow) (patch : RawMW) (controller : Resolver) :
    MaintenanceWindow × Option PyErr :=
  match patch.start with
  | none => updateEndField w patch controller
  | some ts =>
    match strptime ts with
    | .error e => (w, some e)
    | .ok sdt => updateEndField { w with start := astimezoneUtc sdt } patch controller

/-- `get_metadata_as_dict`: values with an `as_dict` method (`TAG`) are
serialized, others pass through. -/
def metaAsDict (m : List (String × MetaVal)) : List (String × MetaVal) :=
  m.map (fun p =>
    match p.2 with
    | .tagObj t => (p.1, MetaVal.tagDict ⟨t.tag_type, t.value⟩)
    | v => (p.1, v))

/-- Serialization of one item inside `as_dict`: `i.as_dict()` with
`AttributeError`/`TypeError` caught and the raw item appended instead.
A string or a plain dict has no `as_dict` (`AttributeError` → raw); a
`UNI` serializes to `{'interface_id': .., 'tag': ..}`; a `Link` serializes
endpoint dicts and metadata — when an endpoint is `None`,
`endpoint.as_dict()` raises `AttributeError` and the `Link` object itself
is appended. -/
def itemAsRaw : Item → RawItem
  | .token s => .str s
  | .dictItem i t a b m => .dict ⟨i, t, a, b, m⟩
  | .uni u =>
    .dict ⟨some u.interface.id, some ⟨u.user_tag.tag_type, u.user_tag.value⟩,
           none, none, none⟩
  | .link l =>
    match l.endpoint_a, l.endpoint_b with
    | some a, some b => .dict ⟨none, none, some a.id, some b.id, some (metaAsDict l.metadata)⟩
    | _, _ => .objItem (.link l)

/-- `MaintenanceWindow.as_dict`. -/
def as_dict (w : MaintenanceWindow) : RawMW :=
  ⟨some w.id, some (strftime w.start), some (strftime w.end_),
   some (w.items.map itemAsRaw)⟩

/-- A kytos event put on the event bus (name and the resource list it
carries). -/
structure KytosEvent where
  name : String
  content : List Item
deriving DecidableEq, Repr

/-- `MaintenanceWindow.start_mw`: the body is `pass` — no classification,
no events. -/
def start_mw (_ : MaintenanceWindow) : List KytosEvent := []

/-- `MaintenanceWindow.end_mw`: the body is `pass` — no events. -/
def end_mw (_ : MaintenanceWindow) : List KytosEvent := []

/-- A job registered in the APScheduler job store: its id and its run
date (the job's callable — `mw.start_mw` / `mw.end_mw` — is determined by
the id and is not modelled further). -/
structure Job where
  jobId : String
  runDate : Datetime
deriving DecidableEq, Repr

/-- The APScheduler job store (ids are unique: `add_job` rejects a
duplicate id). -/
def JobStore := List Job
deriving DecidableEq, Repr

/-- Whether a job with the given id is present. -/
def hasJob (s : List Job) (jid : String) : Bool :=
  s.any (fun j => j.jobId = jid)

/-- APScheduler `BackgroundScheduler.add_job(func, 'date', id=jid,
run_date=d)`: with the default `replace_existing=False`, a duplicate id
raises `ConflictingIdError`; otherwise the job is stored. -/
def add_job (s : List Job) (jid : String) (d : Datetime) : Except PyErr (List Job) :=
  if hasJob s jid then .error .conflictingIdError
  else .ok (s ++ [⟨jid, d⟩])

/-- APScheduler `remove_job(jid)`: removes the job with that id, raising
`JobLookupError` when no such job exists. -/
def remove_job (s : List Job) (jid : String) : Except PyErr (List Job) :=
  if hasJob s jid then .ok (s.filter (fun j => !(j.jobId = jid)))
  else .error .jobLookupError

/-- `Scheduler.add`: registers the `{id}-start` job, then the `{id}-end`
job; an exception from either call escapes (leaving the partial state). -/
def Scheduler.add (s : List Job) (mw : MaintenanceWindow) : List Job × Option PyErr :=
  match add_job s (mw.id ++ "-start") mw.start with
  | .error e => (s, some e)
  | .ok s1 =>
    match add_job s1 (mw.id ++ "-end") mw.end_ with
    | .error e => (s1, some e)
    | .ok s2 => (s2, none)

/-- `Scheduler.remove`: tries to remove the `{id}-start` job, swallowing
`JobLookupError` (logged only), then independently the `{id}-end` job,
again swallowing `JobLookupError`. -/
def Scheduler.remove (s : List Job) (mw : MaintenanceWindow) : List Job :=
  let s1 :=
    match remove_job s (mw.id ++ "-start") with
    | .ok t => t
    | .error _ => s
  match remove_job s1 (mw.id ++ "-end") with
  | .ok t => t
  | .error _ => s1

/-! ### Helper lemmas -/

lemma append_start_ne_append_end (p : String) : p ++ "-start" ≠ p ++ "-end" := by
  intro h
  have h2 : (p ++ "-start").data = (p ++ "-end").data := by rw [h]
  simp [String.data_append] at h2

lemma any_filter_self (s : List Job) (j : String) :
    (s.filter (fun x => !(x.jobId = j))).any (fun x => x.jobId = j) = false := by
  induction s with
  | nil => rfl
  | cons a rest ih =>
    by_cases ha : a.jobId = j
    · rw [List.filter_cons_of_neg (by simp [ha])]
      exact ih
    · rw [List.filter_cons_of_pos (by simp [ha]), List.any_cons]
      simp [ha, ih]

lemma hasJob_filter_self (s : List Job) (j : String) :
    hasJob (s.filter (fun x => !(x.jobId = j))) j = false := by
  simp only [hasJob]
  exact any_filter_self s j

/-- `removeOne s j`: the net effect of `try: remove_job(j) except
JobLookupError: pass` on the job store. -/
def removeOne (s : List Job) (j : String) : List Job :=
  if hasJob s j then s.filter (fun x => !(x.jobId = j)) else s

lemma remove_eq_removeOne (s : List Job) (mw : MaintenanceWindow) :
    Scheduler.remove s mw =
      removeOne (removeOne s (mw.id ++ "-start")) (mw.id ++ "-end") := by
  unfold Scheduler.remove remove_job removeOne
  by_cases h1 : hasJob s (mw.id ++ "-start") <;>
    by_cases h2 : hasJob (if hasJob s (mw.id ++ "-start") then
        s.filter (fun x => !(x.jobId = mw.id ++ "-start")) else s) (mw.id ++ "-end") <;>
    simp_all

lemma hasJob_removeOne_self (s : List Job) (j : String) :
    hasJob (removeOne s j) j = false := by
  unfold removeOne
  by_cases h : hasJob s j <;> simp [h, hasJob_filter_self]

lemma any_filter_ne (s : List Job) (j k : String) (hne : k ≠ j) :
    (s.filter (fun x => !(x.jobId = j))).any (fun x => x.jobId = k)
      = s.any (fun x => x.jobId = k) := by
  induction s with
  | nil => rfl
  | cons a rest ih =>
    by_cases ha : a.jobId = j
    · have hk : (decide (a.jobId = k)) = false := by
        simp only [decide_eq_false_iff_not]
        intro hkk
        exact hne (by rw [← hkk, ha])
      rw [List.filter_cons_of_neg (by simp [ha]), ih, List.any_cons, hk]
      simp
    · rw [List.filter_cons_of_pos (by simp [ha]), List.any_cons, List.any_cons, ih]

lemma hasJob_removeOne_other (s : List Job) (j k : String) (hne : k ≠ j) :
    hasJob (removeOne s j) k = hasJob s k := by
  unfold removeOne
  by_cases h : hasJob s j
  · rw [if_pos h]
    simp only [hasJob]
    exact any_filter_ne s j k hne
  · rw [if_neg h]

lemma removeOne_of_not_hasJob (s : List Job) (j : String) (h : hasJob s j = false) :
    removeOne s j = s := by
  simp [removeOne, h]

/-! ### Claims -/

/-- C1: the claim (and the repository's own tests) say that `start_mw`
classifies the window's items and emits one `maintenance.start` event per
non-empty category — in particular exactly one event for
`items = ["SW1"]` — but the body of `start_mw` (and of `end_mw`) is
`pass`: evaluated at that very window, zero events are emitted (and the
`split_items` helper that the tests patch does not exist in the module). -/
theorem start_mw_sw1_emits_zero_events :
    start_mw ⟨"mw1", ⟨86400, 0, 0⟩, ⟨108000, 0, 0⟩, [.token "SW1"]⟩ = [] ∧
    end_mw ⟨"mw1", ⟨86400, 0, 0⟩, ⟨108000, 0, 0⟩, [.token "SW1"]⟩ = [] ∧
    (start_mw ⟨"mw1", ⟨86400, 0, 0⟩, ⟨108000, 0, 0⟩, [.token "SW1"]⟩).length ≠ 1 :=
  ⟨rfl, rfl, by decide⟩

/-- C6: `Scheduler.remove` is idempotent and total (all `JobLookupError`s
are swallowed): a second removal is a no-op, and after a removal neither
the `{id}-start` nor the `{id}-end` job is present — the `-end` removal is
attempted independently of whether the `-start` job existed. -/
theorem scheduler_remove_idempotent :
    ∀ (s : List Job) (mw : MaintenanceWindow),
      Scheduler.remove (Scheduler.remove s mw) mw = Scheduler.remove s mw ∧
      hasJob (Scheduler.remove s mw) (mw.id ++ "-start") = false ∧
      hasJob (Scheduler.remove s mw) (mw.id ++ "-end") = false := by
  intro s mw
  have hne := append_start_ne_append_end mw.id
  have hstart : hasJob (Scheduler.remove s mw) (mw.id ++ "-start") = false := by
    rw [remove_eq_removeOne,
        hasJob_removeOne_other _ (mw.id ++ "-end") (mw.id ++ "-start") hne,
        hasJob_removeOne_self]
  have hend : hasJob (Scheduler.remove s mw) (mw.id ++ "-end") = false := by
    rw [remove_eq_removeOne]
    exact hasJob_removeOne_self _ _
  refine ⟨?_, hstart, hend⟩
  rw [remove_eq_removeOne (Scheduler.remove s mw) mw,
      removeOne_of_not_hasJob _ _ hstart, removeOne_of_not_hasJob _ _ hend]

/-- C7 counterexample: `Scheduler.add` does not replace an existing job —
`add_job` is called without `replace_existing`, so a second `add` for the
same window id raises `ConflictingIdError` instead of cancel-then-register:
the claim's "calling add twice for the same window id never fails" is
false at this concrete window. -/
theorem scheduler_add_twice_conflicts :
    (Scheduler.add
      (Scheduler.add [] ⟨"w", ⟨0, 0, 0⟩, ⟨100, 0, 0⟩, []⟩).1
      ⟨"w", ⟨0, 0, 0⟩, ⟨100, 0, 0⟩, []⟩).2 = some PyErr.conflictingIdError := by
  decide

lemma hasJob_append (s t : List Job) (k : String) :
    hasJob (s ++ t) k = (hasJob s k || hasJob t k) := by
  simp [hasJob, List.any_append]

/-- C7 amended: when neither job name is present, `Scheduler.add` registers
the `{id}-start` and `{id}-end` jobs (no duplication); but a second `add`
for the same window id fails with `ConflictingIdError` — the existing jobs
are NOT replaced — leaving the job store as the first `add` left it. -/
theorem scheduler_add_registers_and_second_add_fails
    (s : List Job) (mw : MaintenanceWindow)
    (hs : hasJob s (mw.id ++ "-start") = false)
    (he : hasJob s (mw.id ++ "-end") = false) :
    Scheduler.add s mw =
      (s ++ [⟨mw.id ++ "-start", mw.start⟩, ⟨mw.id ++ "-end", mw.end_⟩], none) ∧
    (Scheduler.add (Scheduler.add s mw).1 mw).2 = some PyErr.conflictingIdError ∧
    (Scheduler.add (Scheduler.add s mw).1 mw).1 = (Scheduler.add s mw).1 := by
  have hne := append_start_ne_append_end mw.id
  have h1 : add_job s (mw.id ++ "-start") mw.start
      = .ok (s ++ [⟨mw.id ++ "-start", mw.start⟩]) := by
    simp [add_job, hs]
  have hs1e : hasJob (s ++ [⟨mw.id ++ "-start", mw.start⟩]) (mw.id ++ "-end") = false := by
    rw [hasJob_append, he]
    simp [hasJob]
    intro h
    exact hne h
  have h2 : add_job (s ++ [⟨mw.id ++ "-start", mw.start⟩]) (mw.id ++ "-end") mw.end_
      = .ok (s ++ [⟨mw.id ++ "-start", mw.start⟩] ++ [⟨mw.id ++ "-end", mw.end_⟩]) := by
    simp [add_job, hs1e]
  have hadd : Scheduler.add s mw =
      (s ++ [⟨mw.id ++ "-start", mw.start⟩, ⟨mw.id ++ "-end", mw.end_⟩], none) := by
    simp [Scheduler.add, h1, h2]
  have hpresent :
      hasJob (s ++ [⟨mw.id ++ "-start", mw.start⟩, ⟨mw.id ++ "-end", mw.end_⟩])
        (mw.id ++ "-start") = true := by
    simp [hasJob]
  have herr :
      add_job (s ++ [⟨mw.id ++ "-start", mw.start⟩, ⟨mw.id ++ "-end", mw.end_⟩])
        (mw.id ++ "-start") mw.start = .error .conflictingIdError := by
    simp [add_job, hpresent]
  have hsecond :
      Scheduler.add (s ++ [⟨mw.id ++ "-start", mw.start⟩, ⟨mw.id ++ "-end", mw.end_⟩]) mw =
        (s ++ [⟨mw.id ++ "-start", mw.start⟩, ⟨mw.id ++ "-end", mw.end_⟩],
         some PyErr.conflictingIdError) := by
    unfold Scheduler.add
    rw [herr]
  refine ⟨hadd, ?_, ?_⟩ <;> rw [hadd] <;> rw [hsecond]

/-- C7 amended, witnessed at a concrete window and the empty job store. -/
theorem scheduler_add_registers_witness :
    Scheduler.add [] ⟨"w", ⟨0, 0, 0⟩, ⟨100, 0, 0⟩, []⟩ =
      ([⟨"w" ++ "-start", ⟨0, 0, 0⟩⟩, ⟨"w" ++ "-end", ⟨100, 0, 0⟩⟩], none) ∧
    (Scheduler.add
      (Scheduler.add [] ⟨"w", ⟨0, 0, 0⟩, ⟨100, 0, 0⟩, []⟩).1
      ⟨"w", ⟨0, 0, 0⟩, ⟨100, 0, 0⟩, []⟩).2 = some PyErr.conflictingIdError ∧
    (Scheduler.add
      (Scheduler.add [] ⟨"w", ⟨0, 0, 0⟩, ⟨100, 0, 0⟩, []⟩).1
      ⟨"w", ⟨0, 0, 0⟩, ⟨100, 0, 0⟩, []⟩).1 =
      (Scheduler.add [] ⟨"w", ⟨0, 0, 0⟩, ⟨100, 0, 0⟩, []⟩).1 :=
  scheduler_add_registers_and_second_add_fails []
    ⟨"w", ⟨0, 0, 0⟩, ⟨100, 0, 0⟩, []⟩ (by decide) (by decide)

/-- C9: `update` touches only the fields present in the patch: `id` is
never changed (the method never assigns it), and each of `start`, `end`,
`items` keeps its prior value when absent from the patch — this holds on
every path, including the ones where a later field's parsing raises. -/
theorem update_frame (w : MaintenanceWindow) (patch : RawMW) (c : Resolver) :
    (update w patch c).1.id = w.id ∧
    (patch.start = none → (update w patch c).1.start = w.start) ∧
    (patch.end_ = none → (update w patch c).1.end_ = w.end_) ∧
    (patch.items = none → (update w patch c).1.items = w.items) := by
  obtain ⟨pid, ps, pe, pi⟩ := patch
  unfold update updateEndField updateItemsField
  repeat' split
  all_goals simp_all

/-- C9, witnessed at a concrete window and the empty patch. -/
theorem update_frame_witness :
    (update ⟨"w", ⟨0, 0, 0⟩, ⟨100, 0, 0⟩, [.token "SW1"]⟩
      ⟨none, none, none, none⟩ (fun _ => none)).1.id = "w" ∧
    (update ⟨"w", ⟨0, 0, 0⟩, ⟨100, 0, 0⟩, [.token "SW1"]⟩
      ⟨none, none, none, none⟩ (fun _ => none)).1.start = ⟨0, 0, 0⟩ ∧
    (update ⟨"w", ⟨0, 0, 0⟩, ⟨100, 0, 0⟩, [.token "SW1"]⟩
      ⟨none, none, none, none⟩ (fun _ => none)).1.end_ = ⟨100, 0, 0⟩ ∧
    (update ⟨"w", ⟨0, 0, 0⟩, ⟨100, 0, 0⟩, [.token "SW1"]⟩
      ⟨none, none, none, none⟩ (fun _ => none)).1.items = [.token "SW1"] :=
  ⟨(update_frame _ _ _).1, (update_frame _ _ _).2.1 rfl,
   (update_frame _ _ _).2.2.1 rfl, (update_frame _ _ _).2.2.2 rfl⟩

/-- C8 counterexample: a patch with a valid new `start` and an invalid
`end` string makes `update` raise after the `start` assignment has already
happened — the window is NOT left entirely unchanged (its `start` moved
from 0 to 50), refuting the claim as stated. -/
theorem update_invalid_end_mutates_start :
    update ⟨"w", ⟨0, 0, 0⟩, ⟨100, 0, 0⟩, []⟩
        ⟨none, some (.valid 50 0), some (.invalid "busted"), none⟩ (fun _ => none)
      = (⟨"w", ⟨50, 0, 0⟩, ⟨100, 0, 0⟩, []⟩, some PyErr.valueError) ∧
    (⟨50, 0, 0⟩ : Datetime) ≠ ⟨0, 0, 0⟩ :=
  ⟨rfl, by decide⟩

/-- C8 amended: an invalid `start`/`end` string surfaces as a
`ValueError`; fields at and after the failing assignment are untouched —
an invalid `start` leaves the window fully unchanged, while an invalid
`end` leaves `id`, `end` and `items` unchanged but keeps any new `start`
the same patch already applied. -/
theorem update_bad_timestamp_surfaces_error
    (w : MaintenanceWindow) (patch : RawMW) (c : Resolver) (s : String) :
    (patch.start = some (.invalid s) → update w patch c = (w, some PyErr.valueError)) ∧
    (patch.end_ = some (.invalid s) →
      (update w patch c).2 = some PyErr.valueError ∧
      (update w patch c).1.id = w.id ∧
      (update w patch c).1.end_ = w.end_ ∧
      (update w patch c).1.items = w.items) := by
  obtain ⟨pid, ps, pe, pi⟩ := patch
  constructor
  · intro h
    simp only at h
    subst h
    simp [update, strptime]
  · intro h
    simp only at h
    subst h
    cases ps with
    | none => simp [update, updateEndField, strptime]
    | some ts =>
      cases ts with
      | valid a b => simp [update, updateEndField, strptime]
      | invalid s2 => simp [update, strptime]

/-- C8 amended, witnessed: an invalid `start` leaves the window unchanged;
an invalid `end` surfaces the error and leaves `end`/`items` unchanged. -/
theorem update_bad_timestamp_witness :
    update ⟨"w", ⟨0, 0, 0⟩, ⟨100, 0, 0⟩, []⟩
        ⟨none, some (.invalid "x"), none, none⟩ (fun _ => none)
      = (⟨"w", ⟨0, 0, 0⟩, ⟨100, 0, 0⟩, []⟩, some PyErr.valueError) ∧
    ((update ⟨"w", ⟨0, 0, 0⟩, ⟨100, 0, 0⟩, []⟩
        ⟨none, none, some (.invalid "x"), none⟩ (fun _ => none)).2 = some PyErr.valueError ∧
      (update ⟨"w", ⟨0, 0, 0⟩, ⟨100, 0, 0⟩, []⟩
        ⟨none, none, some (.invalid "x"), none⟩ (fun _ => none)).1.id = "w" ∧
      (update ⟨"w", ⟨0, 0, 0⟩, ⟨100, 0, 0⟩, []⟩
        ⟨none, none, some (.invalid "x"), none⟩ (fun _ => none)).1.end_ = ⟨100, 0, 0⟩ ∧
      (update ⟨"w", ⟨0, 0, 0⟩, ⟨100, 0, 0⟩, []⟩
        ⟨none, none, some (.invalid "x"), none⟩ (fun _ => none)).1.items = []) :=
  ⟨(update_bad_timestamp_surfaces_error _ ⟨none, some (.invalid "x"), none, none⟩
      (fun _ => none) "x").1 rfl,
   (update_bad_timestamp_surfaces_error _ ⟨none, none, some (.invalid "x"), none⟩
      (fun _ => none) "x").2 rfl⟩

/-- C10: `update` filters reconstructed items with `if item:` — Python
truthiness, not an `is not None` check — so a well-formed but falsy item,
the empty-string switch token, is silently dropped from the resulting
items while the remaining items are kept and no error is reported. -/
theorem update_drops_falsy_token (w : MaintenanceWindow) (c : Resolver)
    (rest : List RawItem) (l : List Item)
    (h : updateItems c rest = .ok l) :
    update w ⟨none, none, none, some (.str "" :: rest)⟩ c = ({ w with items := l }, none) ∧
    updateItems c (.str "" :: rest) = updateItems c rest := by
  have hskip : updateItems c (.str "" :: rest) = updateItems c rest := by
    cases hr : updateItems c rest <;>
      simp [updateItems, item_from_raw, uni_from_dict, rawAsItem, itemTruthy, hr]
  refine ⟨?_, hskip⟩
  simp [update, updateEndField, updateItemsField, hskip, h]

/-- C10, witnessed: the empty token is dropped, `"SW1"` is kept. -/
theorem update_drops_falsy_token_witness :
    update ⟨"w", ⟨0, 0, 0⟩, ⟨100, 0, 0⟩, []⟩
        ⟨none, none, none, some [.str "", .str "SW1"]⟩ (fun _ => none)
      = (⟨"w", ⟨0, 0, 0⟩, ⟨100, 0, 0⟩, [.token "SW1"]⟩, none) ∧
    updateItems (fun _ => none) [.str "", .str "SW1"]
      = updateItems (fun _ => none) [.str "SW1"] :=
  update_drops_falsy_token ⟨"w", ⟨0, 0, 0⟩, ⟨100, 0, 0⟩, []⟩ (fun _ => none)
    [.str "SW1"] [.token "SW1"] rfl

/-- C4 counterexample: a link descriptor whose endpoints the resolver
cannot find is NOT excluded by `update` — `link_from_dict` never returns
`None` (the `Link` is built with the missing endpoints) and a `Link`
object is truthy, so the broken link is kept in `items`. -/
theorem update_keeps_unresolvable_link :
    update ⟨"w", ⟨0, 0, 0⟩, ⟨100, 0, 0⟩, []⟩
        ⟨none, none, none, some [.dict ⟨none, none, some "eA", some "eB", none⟩]⟩
        (fun _ => none)
      = (⟨"w", ⟨0, 0, 0⟩, ⟨100, 0, 0⟩, [.link ⟨none, none, []⟩]⟩, none) ∧
    (⟨"w", ⟨0, 0, 0⟩, ⟨100, 0, 0⟩, [.link ⟨none, none, []⟩]⟩ : MaintenanceWindow).items ≠ [] :=
  ⟨rfl, by decide⟩

/-- C4 amended: a UNI descriptor whose `interface_id` is unresolvable is
individually dropped by `update` (`uni_from_dict` returns `None`, which is
falsy), the remaining items are kept, and the operation succeeds; link
descriptors with unresolvable endpoints are instead kept as `Link`s with
missing endpoints. -/
theorem update_drops_unresolvable_uni (w : MaintenanceWindow) (c : Resolver)
    (d : RawDict) (iid : String) (td : TagDict) (rest : List RawItem) (l : List Item)
    (hiid : d.interface_id = some iid) (htag : d.tag = some td)
    (hunres : c iid = none)
    (hrest : updateItems c rest = .ok l) :
    update w ⟨none, none, none, some (.dict d :: rest)⟩ c = ({ w with items := l }, none) := by
  have hprobe : item_from_raw (.dict d) c = .ok none := by
    simp [item_from_raw, uni_from_dict, intf_from_dict, hiid, htag, hunres]
  simp [update, updateEndField, updateItemsField, updateItems, hprobe, hrest]

/-- C4 amended, witnessed: the unresolvable UNI entry is dropped, the
switch token after it is kept, and `update` reports no error. -/
theorem update_drops_unresolvable_uni_witness :
    update ⟨"w", ⟨0, 0, 0⟩, ⟨100, 0, 0⟩, []⟩
        ⟨none, none, none,
         some [.dict ⟨some "intfX", some ⟨1, 100⟩, none, none, none⟩, .str "SW1"]⟩
        (fun _ => none)
      = (⟨"w", ⟨0, 0, 0⟩, ⟨100, 0, 0⟩, [.token "SW1"]⟩, none) :=
  update_drops_unresolvable_uni ⟨"w", ⟨0, 0, 0⟩, ⟨100, 0, 0⟩, []⟩ (fun _ => none)
    ⟨some "intfX", some ⟨1, 100⟩, none, none, none⟩ "intfX" ⟨1, 100⟩
    [.str "SW1"] [.token "SW1"] rfl rfl rfl rfl

/-- C5 counterexample: a dict matching neither shape — missing both
`interface_id` and `endpoint_a`/`endpoint_b` — DOES crash both
operations: the UNI probe raises `KeyError`, the `link_from_dict` call in
the `except KeyError` handler raises `KeyError` again, and an exception
raised inside an `except` handler is not caught by the following
`except TypeError` clause. -/
theorem shapeless_dict_raises_keyerror :
    from_dict ⟨some "w", some (.valid 0 0), some (.valid 100 0),
               some [.dict ⟨none, none, none, none, none⟩]⟩ (fun _ => none) "f"
      = .error PyErr.keyError ∧
    (update ⟨"w", ⟨0, 0, 0⟩, ⟨100, 0, 0⟩, []⟩
        ⟨none, none, none, some [.dict ⟨none, none, none, none, none⟩]⟩
        (fun _ => none)).2
      = some PyErr.keyError :=
  ⟨rfl, rfl⟩

/-- C5 amended: only items that are not dicts (strings, already-resolved
objects) take the `TypeError` branch and are passed through unchanged
without raising — `from_dict` keeps them as-is, `update` keeps them when
truthy; a dict matching neither the UNI nor the link shape raises an
uncaught `KeyError` instead of passing through. -/
theorem non_dict_items_pass_through (c : Resolver) (s : String) (it : Item)
    (rest : List RawItem) :
    fromDictItems c (.str s :: rest)
      = (fromDictItems c rest).map (fun o => o.map (fun l => Item.token s :: l)) ∧
    updateItems c (.str s :: rest)
      = (updateItems c rest).map
          (fun l => if itemTruthy (.token s) then Item.token s :: l else l) ∧
    fromDictItems c (.objItem it :: rest)
      = (fromDictItems c rest).map (fun o => o.map (fun l => it :: l)) ∧
    updateItems c (.objItem it :: rest)
      = (updateItems c rest).map (fun l => if itemTruthy it then it :: l else l) := by
  refine ⟨?_, ?_, ?_, ?_⟩
  · cases hr : fromDictItems c rest with
    | error e => simp [fromDictItems, item_from_raw, uni_from_dict, rawAsItem, Except.map, hr]
    | ok o =>
      cases o <;> simp [fromDictItems, item_from_raw, uni_from_dict, rawAsItem, Except.map, hr]
  · cases hr : updateItems c rest <;>
      simp [updateItems, item_from_raw, uni_from_dict, rawAsItem, Except.map, hr]
  · cases hr : fromDictItems c rest with
    | error e => simp [fromDictItems, item_from_raw, uni_from_dict, rawAsItem, Except.map, hr]
    | ok o =>
      cases o <;> simp [fromDictItems, item_from_raw, uni_from_dict, rawAsItem, Except.map, hr]
  · cases hr : updateItems c rest <;>
      simp [updateItems, item_from_raw, uni_from_dict, rawAsItem, Except.map, hr]

/-- C3 counterexample: a record whose only item is a link descriptor with
unresolvable endpoints does NOT make `from_dict` return `None` —
`link_from_dict` has no not-found check, so deserialization succeeds and
yields a window holding a `Link` with missing endpoints. -/
theorem from_dict_unresolvable_link_not_null :
    from_dict ⟨some "w", some (.valid 0 0), some (.valid 100 0),
               some [.dict ⟨none, none, some "eA", some "eB", none⟩]⟩ (fun _ => none) "f"
      = .ok (some ⟨"w", ⟨0, 0, 0⟩, ⟨100, 0, 0⟩, [.link ⟨none, none, []⟩]⟩) ∧
    (Except.ok (some ⟨"w", ⟨0, 0, 0⟩, ⟨100, 0, 0⟩, [.link ⟨none, none, []⟩]⟩)
      : Except PyErr (Option MaintenanceWindow)) ≠ .ok none :=
  ⟨rfl, by simp⟩

lemma fromDictItems_append_none (c : Resolver) (pre : List RawItem) (l : List Item)
    (d : RawItem) (rest : List RawItem)
    (hpre : fromDictItems c pre = .ok (some l)) (hd : item_from_raw d c = .ok none) :
    fromDictItems c (pre ++ d :: rest) = .ok none := by
  induction pre generalizing l with
  | nil => simp [fromDictItems, hd]
  | cons p ps ih =>
    rw [fromDictItems] at hpre
    match hp : item_from_raw p c with
    | .error e => rw [hp] at hpre; exact absurd hpre (by simp)
    | .ok none => rw [hp] at hpre; exact absurd hpre (by simp)
    | .ok (some it) =>
      rw [hp] at hpre
      match hps : fromDictItems c ps with
      | .error e => rw [hps] at hpre; exact absurd hpre (by simp)
      | .ok none => rw [hps] at hpre; exact absurd hpre (by simp)
      | .ok (some l2) =>
        have : fromDictItems c (ps ++ d :: rest) = .ok none := ih l2 hps
        simp [List.cons_append, fromDictItems, hp, this]

/-- C3 amended: whole-document failure happens only for UNI descriptors:
if any item is a UNI descriptor whose interface the resolver cannot find
(the items before it deserializing fine), `from_dict` returns `None` and
no partially-built window escapes; a link descriptor with unresolvable
endpoints does NOT fail — it is kept as a `Link` with missing
endpoints. -/
theorem from_dict_null_on_unresolvable_uni (r : RawMW) (c : Resolver) (fresh : String)
    (a b a2 b2 : Int) (pre rest : List RawItem) (l : List Item)
    (d : RawDict) (iid : String) (td : TagDict)
    (hs : r.start = some (.valid a b)) (he : r.end_ = some (.valid a2 b2))
    (hi : r.items = some (pre ++ .dict d :: rest))
    (hpre : fromDictItems c pre = .ok (some l))
    (hiid : d.interface_id = some iid) (htag : d.tag = some td)
    (hunres : c iid = none) :
    from_dict r c fresh = .ok none := by
  have hd : item_from_raw (.dict d) c = .ok none := by
    simp [item_from_raw, uni_from_dict, intf_from_dict, hiid, htag, hunres]
  have hitems := fromDictItems_append_none c pre l (.dict d) rest hpre hd
  simp [from_dict, hs, he, hi, strptime, hitems]

/-- C3 amended, witnessed: a record with a resolvable switch token
followed by an unresolvable UNI descriptor deserializes to `None`. -/
theorem from_dict_null_on_unresolvable_uni_witness :
    from_dict ⟨some "w", some (.valid 0 0), some (.valid 100 0),
               some [.str "SW1", .dict ⟨some "intfX", some ⟨1, 100⟩, none, none, none⟩]⟩
        (fun _ => none) "f" = .ok none :=
  from_dict_null_on_unresolvable_uni
    ⟨some "w", some (.valid 0 0), some (.valid 100 0),
     some [.str "SW1", .dict ⟨some "intfX", some ⟨1, 100⟩, none, none, none⟩]⟩
    (fun _ => none) "f" 0 0 100 0 [.str "SW1"] [] [.token "SW1"]
    ⟨some "intfX", some ⟨1, 100⟩, none, none, none⟩ "intfX" ⟨1, 100⟩
    rfl rfl rfl rfl rfl rfl rfl

/-- Python `==` on items, per the collaborators' `__eq__`: strings compare
by value, `UNI.__eq__` compares interface and tag, `Link.__eq__` compares
only the two endpoints (metadata is ignored), dicts compare by value. -/
def itemPyEq : Item → Item → Bool
  | .token s, .token t => decide (s = t)
  | .uni u, .uni v =>
    decide (u.interface = v.interface) && decide (u.user_tag = v.user_tag)
  | .link l, .link m =>
    decide (l.endpoint_a = m.endpoint_a) && decide (l.endpoint_b = m.endpoint_b)
  | .dictItem i1 t1 a1 b1 m1, .dictItem i2 t2 a2 b2 m2 =>
    decide (i1 = i2) && decide (t1 = t2) && decide (a1 = a2) &&
      decide (b1 = b2) && decide (m1 = m2)
  | _, _ => false

/-- Python `==` on item lists (elementwise). -/
def listPyEq : List Item → List Item → Bool
  | [], [] => true
  | x :: xs, y :: ys => itemPyEq x y && listPyEq xs ys
  | _, _ => false

/-- An acceptable serialized `s_vlan` metadata value: absent, a tag dict,
or a falsy string (a truthy non-dict value — a non-empty string or an
object — would make `TAG.from_dict` raise `AttributeError` inside
`link_from_dict`). -/
def svlanOkB : Option MetaVal → Bool
  | none => true
  | some (.tagDict _) => true
  | some (.tagObj _) => false
  | some (.raw s) => decide (s = "")

/-- A "valid" window item for the round-trip: an opaque string token; a
UNI whose interface the (unchanged) resolver resolves to itself; or a link
whose two endpoints are present, resolve to themselves, and whose
serialized `s_vlan` metadata (last binding, dict semantics) is
acceptable. -/
def itemOk (c : Resolver) : Item → Bool
  | .token _ => true
  | .uni u => decide (c u.interface.id = some u.interface)
  | .link l =>
    match l.endpoint_a, l.endpoint_b with
    | some a, some b =>
      decide (c a.id = some a) && decide (c b.id = some b) &&
        svlanOkB (getMeta (metaAsDict l.metadata).reverse "s_vlan")
    | _, _ => false
  | .dictItem _ _ _ _ _ => false

lemma getMeta_append (m1 m2 : List (String × MetaVal)) (q : String) :
    getMeta (m1 ++ m2) q =
      match getMeta m1 q with
      | some r => some r
      | none => getMeta m2 q := by
  induction m1 with
  | nil => simp [getMeta]
  | cons p rest ih =>
    obtain ⟨k, v⟩ := p
    by_cases h : q = k <;> simp [getMeta, h, ih]

lemma getMeta_metaUpdate (m : List (String × MetaVal)) (k : String) (v : MetaVal)
    (q : String) :
    getMeta (metaUpdate m k v) q = if q = k then some v else getMeta m q := by
  induction m with
  | nil =>
    by_cases hq : q = k <;> simp [metaUpdate, getMeta, hq]
  | cons p rest ih =>
    obtain ⟨k2, v2⟩ := p
    by_cases hk2 : k2 = k
    · subst hk2
      by_cases hq : q = k2 <;> simp [metaUpdate, getMeta, hq]
    · have hne : (k2 = k) = False := by simp [hk2]
      by_cases hq : q = k2
      · subst hq
        have : (q = k) = False := by
          simp
          intro hh
          exact hk2 hh
        simp [metaUpdate, getMeta, hne, this]
      · simp [metaUpdate, getMeta, hne, hq, ih]

lemma getMeta_extendMetadata (acc md : List (String × MetaVal)) (q : String) :
    getMeta (extendMetadata acc md) q =
      match getMeta md.reverse q with
      | some r => some r
      | none => getMeta acc q := by
  induction md generalizing acc with
  | nil => simp [extendMetadata, getMeta]
  | cons p rest ih =>
    obtain ⟨k, v⟩ := p
    have hstep : extendMetadata acc ((k, v) :: rest)
        = extendMetadata (metaUpdate acc k v) rest := by
      simp [extendMetadata]
    rw [hstep, ih, List.reverse_cons, getMeta_append]
    cases hr : getMeta rest.reverse q
    · rw [getMeta_metaUpdate]
      by_cases hq : q = k <;> simp [getMeta, hq]
    · rfl

lemma link_from_dict_endpoints (c : Resolver) (a b : Interface)
    (md : List (String × MetaVal))
    (ha : c a.id = some a) (hb : c b.id = some b)
    (hsv : svlanOkB (getMeta md.reverse "s_vlan") = true) :
    ∃ mdout, link_from_dict (.dict ⟨none, none, some a.id, some b.id, some md⟩) c
      = .ok ⟨some a, some b, mdout⟩ := by
  unfold link_from_dict
  simp only [ha, hb, getMeta_extendMetadata]
  cases hsv0 : getMeta md.reverse "s_vlan" with
  | none => exact ⟨extendMetadata [] md, by simp [hsv0, getMeta]⟩
  | some sv =>
    cases sv with
    | tagDict d =>
      exact ⟨metaUpdate (extendMetadata [] md) "s_vlan" (.tagObj ⟨d.tag_type, d.value⟩),
        by simp [hsv0, metaTruthy, tagFromMetaVal]⟩
    | tagObj t => rw [hsv0] at hsv; simp [svlanOkB] at hsv
    | raw s =>
      rw [hsv0] at hsv
      simp only [svlanOkB, decide_eq_true_eq] at hsv
      subst hsv
      exact ⟨extendMetadata [] md, by simp [hsv0, metaTruthy]⟩

lemma item_roundtrip (c : Resolver) (i : Item) (h : itemOk c i = true) :
    ∃ it, item_from_raw (itemAsRaw i) c = .ok (some it) ∧ itemPyEq it i = true := by
  cases i with
  | token s =>
    exact ⟨.token s, rfl, by simp [itemPyEq]⟩
  | uni u =>
    obtain ⟨⟨iid⟩, ⟨tt, tv⟩⟩ := u
    simp only [itemOk, decide_eq_true_eq] at h
    refine ⟨.uni ⟨⟨iid⟩, ⟨tt, tv⟩⟩, ?_, ?_⟩
    · simp [itemAsRaw, item_from_raw, uni_from_dict, intf_from_dict, h]
    · simp [itemPyEq]
  | link l =>
    obtain ⟨ea, eb, md⟩ := l
    cases ea with
    | none => simp [itemOk] at h
    | some a =>
      cases eb with
      | none => simp [itemOk] at h
      | some b =>
        simp only [itemOk, Bool.and_eq_true, decide_eq_true_eq] at h
        obtain ⟨⟨ha, hb⟩, hsv⟩ := h
        obtain ⟨mdout, hlink⟩ := link_from_dict_endpoints c a b (metaAsDict md) ha hb hsv
        refine ⟨.link ⟨some a, some b, mdout⟩, ?_, ?_⟩
        · simp [itemAsRaw, item_from_raw, uni_from_dict, hlink]
        · simp [itemPyEq]
  | dictItem i1 t1 a1 b1 m1 => simp [itemOk] at h

lemma items_roundtrip (c : Resolver) (items : List Item)
    (h : ∀ i ∈ items, itemOk c i = true) :
    ∃ its, fromDictItems c (items.map itemAsRaw) = .ok (some its) ∧
      listPyEq its items = true := by
  induction items with
  | nil => exact ⟨[], rfl, rfl⟩
  | cons i rest ih =>
    obtain ⟨it, hit, heq⟩ := item_roundtrip c i (h i (by simp))
    obtain ⟨its, hits, heqs⟩ := ih (fun j hj => h j (by simp [hj]))
    exact ⟨it :: its, by simp [fromDictItems, hit, hits],
      by simp [listPyEq, heq, heqs]⟩

/-- C2: for a valid window — non-empty id (a falsy id would be replaced by
a fresh uuid), items that are opaque string tokens or resolvable
UNIs/links, unchanged resolver — `from_dict (as_dict w)` succeeds and
reconstructs a window with the same id, `start`/`end` preserved at second
granularity (microseconds dropped by the fixed timestamp format,
normalized to UTC), and items equal to the originals under the
collaborators' `__eq__`. -/
theorem from_dict_as_dict_roundtrip (c : Resolver) (fresh : String)
    (w : MaintenanceWindow) (hid : w.id ≠ "")
    (hitems : ∀ i ∈ w.items, itemOk c i = true) :
    ∃ w', from_dict (as_dict w) c fresh = .ok (some w') ∧
      w'.id = w.id ∧
      w'.start = ⟨w.start.instantSec, 0, 0⟩ ∧
      w'.end_ = ⟨w.end_.instantSec, 0, 0⟩ ∧
      listPyEq w'.items w.items = true := by
  obtain ⟨its, hits, heqs⟩ := items_roundtrip c w.items hitems
  refine ⟨⟨w.id, ⟨w.start.instantSec, 0, 0⟩, ⟨w.end_.instantSec, 0, 0⟩, its⟩,
    ?_, rfl, rfl, rfl, heqs⟩
  simp [from_dict, as_dict, strftime, strptime, astimezoneUtc, mkId, hid, hits,
    Int.add_sub_cancel]

/-- C2, witnessed on a window holding a switch token, a resolvable UNI and
a resolvable link carrying an `s_vlan` tag, with a microsecond-laden
`start` and a non-UTC `end` offset. -/
theorem from_dict_as_dict_roundtrip_witness :
    ∃ w', from_dict (as_dict ⟨"w1", ⟨1000, 500000, 0⟩, ⟨2000, 0, 60⟩,
        [.token "SW1", .uni ⟨⟨"i1"⟩, ⟨1, 100⟩⟩,
         .link ⟨some ⟨"a"⟩, some ⟨"b"⟩, [("s_vlan", .tagObj ⟨1, 5⟩)]⟩]⟩)
        (fun s => if s = "i1" then some ⟨"i1"⟩ else if s = "a" then some ⟨"a"⟩
                  else if s = "b" then some ⟨"b"⟩ else none) "fresh"
      = .ok (some w') ∧
      w'.id = "w1" ∧
      w'.start = ⟨1000, 0, 0⟩ ∧
      w'.end_ = ⟨2000, 0, 0⟩ ∧
      listPyEq w'.items
        [.token "SW1", .uni ⟨⟨"i1"⟩, ⟨1, 100⟩⟩,
         .link ⟨some ⟨"a"⟩, some ⟨"b"⟩, [("s_vlan", .tagObj ⟨1, 5⟩)]⟩] = true :=
  from_dict_as_dict_roundtrip
    (fun s => if s = "i1" then some ⟨"i1"⟩ else if s = "a" then some ⟨"a"⟩
              else if s = "b" then some ⟨"b"⟩ else none) "fresh"
    ⟨"w1", ⟨1000, 500000, 0⟩, ⟨2000, 0, 60⟩,
     [.token "SW1", .uni ⟨⟨"i1"⟩, ⟨1, 100⟩⟩,
      .link ⟨some ⟨"a"⟩, some ⟨"b"⟩, [("s_vlan", .tagObj ⟨1, 5⟩)]⟩]⟩
    (by decide) (by decide)
